import Mathlib

/-!
Formal model of the daily MBTA delay ETL pipeline
(`MLOps/lab_6_airflow/dags/daily_mbta_delay_etl.py`).

The DAG's tasks are embedded as pure Lean functions:
* `transform_mbta_data` mirrors the transform task: build route/trip lookup
  dictionaries from the `included` entity list, construct one row per
  prediction, keep only the rows whose `delay` attribute is non-null, and
  record the columns of the resulting DataFrame.
* `load_mbta_to_warehouse` mirrors the load task: read the clean CSV
  (pandas `read_csv`, which raises `EmptyDataError` on a file without
  columns, modelled as `none`), append to the warehouse and return the
  number of rows contributed by this run.
* `mbta_data_quality_check` mirrors the soft quality-check task: it only
  chooses a message, it has no failure path.
* The Airflow orchestration (retries from `default_args`, the effect of
  `AirflowFailException`, which fails a task without consuming retries) is
  modelled by `runTask` / `runPipeline`.

JSON values are modelled at the granularity at which the Python reads them:
every key the code accesses with `.get` becomes an optional field, and the
`x or {}` / `x or None` idioms become `Option.getD` / `pyOr`.  Dictionary
keys may be `none` because `item.get("id")` can return `None`.
JSON numbers are modelled as rationals, so `delay / 60.0` is exact division.
-/

/-- The attribute keys the DAG reads from entity `attributes` objects.
A missing key reads as `none`, matching Python `dict.get`. -/
structure MbtaAttributes where
  long_name : Option String := none
  short_name : Option String := none
  direction_id : Option Int := none
  headsign : Option String := none
  delay : Option Rat := none
  departure_time : Option String := none
  status : Option String := none
deriving DecidableEq, Repr, Inhabited

/-- The `data` object inside a relationship: `{"data": {"id": ...}}`. -/
structure RelData where
  id : Option String := none
deriving DecidableEq, Repr, Inhabited

/-- One relationship object, e.g. `relationships.route`. -/
structure RelObj where
  data : Option RelData := none
deriving DecidableEq, Repr, Inhabited

/-- The `relationships` object of a prediction entity. -/
structure Relationships where
  route : Option RelObj := none
  trip : Option RelObj := none
deriving DecidableEq, Repr, Inhabited

/-- A prediction entity from the payload's `data` list. -/
structure Prediction where
  attributes : Option MbtaAttributes := none
  relationships : Option Relationships := none
deriving DecidableEq, Repr, Inhabited

/-- An entity from the payload's `included` list (route or trip or other). -/
structure IncludedItem where
  type : Option String := none
  id : Option String := none
  attributes : Option MbtaAttributes := none
deriving DecidableEq, Repr, Inhabited

/-- The decoded raw payload: `payload.get("data", [])` and
`payload.get("included", [])`. -/
structure Payload where
  data : List Prediction := []
  included : List IncludedItem := []
deriving DecidableEq, Repr, Inhabited

/-- Python `attrs = item.get("attributes", {}) or {}`: a missing or null
attributes object behaves as the empty dict (every key reads `None`). -/
def attrsD (a : Option MbtaAttributes) : MbtaAttributes := a.getD {}

/-- Python `a or b` on optional strings: `None` and the empty string are
falsy, so they fall through to `b`. -/
def pyOr (a b : Option String) : Option String :=
  match a with
  | some s => if s = "" then b else some s
  | none => b

/-- Value stored in `route_lookup` for a route id. -/
structure RouteInfo where
  route_id : Option String := none
  route_name : Option String := none
deriving DecidableEq, Repr, Inhabited

/-- Value stored in `trip_lookup` for a trip id. -/
structure TripInfo where
  trip_id : Option String := none
  direction_id : Option Int := none
  headsign : Option String := none
deriving DecidableEq, Repr, Inhabited

/-- Python dict lookup on an association list built by repeated assignment:
the last binding of a key wins, a missing key reads `none`. -/
def dget {α : Type} (l : List (Option String × α)) (k : Option String) : Option α :=
  (l.reverse.find? (fun p => p.1 == k)).map (fun p => p.2)

/-- Lookup `route_lookup`: one entry per included item of type `"route"`, keyed by
its (possibly null) id, with `route_name = long_name or short_name`. -/
def route_lookup (included : List IncludedItem) : List (Option String × RouteInfo) :=
  included.filterMap (fun item =>
    if item.type = some "route" then
      some (item.id,
        { route_id := item.id
          route_name := pyOr (attrsD item.attributes).long_name
            (attrsD item.attributes).short_name })
    else none)

/-- Lookup `trip_lookup`: one entry per included item of type `"trip"`, keyed by
its (possibly null) id. -/
def trip_lookup (included : List IncludedItem) : List (Option String × TripInfo) :=
  included.filterMap (fun item =>
    if item.type = some "trip" then
      some (item.id,
        { trip_id := item.id
          direction_id := (attrsD item.attributes).direction_id
          headsign := (attrsD item.attributes).headsign })
    else none)

/-- Resolution `route_id = (route_rel.get("data") or {}).get("id")` with
`route_rel = (rel.get("route", {}) or {})`. -/
def routeRelId (p : Prediction) : Option String :=
  ((((p.relationships.getD {}).route.getD {}).data).getD {}).id

/-- Resolution `trip_id = (trip_rel.get("data") or {}).get("id")`. -/
def tripRelId (p : Prediction) : Option String :=
  ((((p.relationships.getD {}).trip.getD {}).data).getD {}).id

/-- One output row of the transform task.  The final column holds the
Airflow `execution_date` (the run identifier). -/
structure DelayRow where
  route_id : Option String := none
  route_name : Option String := none
  trip_id : Option String := none
  headsign : Option String := none
  direction_id : Option Int := none
  status : Option String := none
  delay_seconds : Option Rat := none
  delay_minutes : Option Rat := none
  departure_time : Option String := none
  execution_date : String := ""
deriving DecidableEq, Repr, Inhabited

/-- The dict appended to `rows` for one prediction, translated field by
field from the loop body of `transform_mbta_data`. -/
def makeRow (rl : List (Option String × RouteInfo))
    (tl : List (Option String × TripInfo))
    (execution_date : String) (pred : Prediction) : DelayRow :=
  let attrs := attrsD pred.attributes
  let route_id := routeRelId pred
  let trip_id := tripRelId pred
  let delay_seconds := attrs.delay
  let route_info := dget rl route_id
  let trip_info := dget tl trip_id
  { route_id := route_id
    route_name := route_info.bind RouteInfo.route_name
    trip_id := trip_id
    headsign := trip_info.bind TripInfo.headsign
    direction_id := trip_info.bind TripInfo.direction_id
    status := attrs.status
    delay_seconds := delay_seconds
    delay_minutes := delay_seconds.map (fun d => d / 60)
    departure_time := attrs.departure_time
    execution_date := execution_date }

/-- Column order of the clean DataFrame: the key insertion order of the row
dicts.  A DataFrame built from an empty row list has no columns at all. -/
def stdCols : List String :=
  ["route_id", "route_name", "trip_id", "headsign", "direction_id",
   "status", "delay_seconds", "delay_minutes", "departure_time",
   "execution_date"]

/-- The clean artifact written by `df.to_csv`: the DataFrame's columns and
its (filtered) rows.  `columns = []` encodes the completely empty CSV file
that `pd.DataFrame([]).to_csv` produces. -/
structure CleanArtifact where
  columns : List String := []
  rows : List DelayRow := []
deriving DecidableEq, Repr, Inhabited

/-- The transform task: build lookups, build one row per prediction, keep
only rows where `delay_seconds` is non-null (`df["delay_seconds"].notna()`,
applied only when the DataFrame is non-empty), and serialize. -/
def transform_mbta_data (payload : Payload) (execution_date : String) :
    CleanArtifact :=
  let rl := route_lookup payload.included
  let tl := trip_lookup payload.included
  let rows := payload.data.map (makeRow rl tl execution_date)
  let kept := if rows.isEmpty then rows
    else rows.filter (fun r => r.delay_seconds.isSome)
  { columns := if rows.isEmpty then [] else stdCols
    rows := kept }

/-- Reading (`pd.read_csv`) the clean artifact: a file with no columns at all
(written for an empty DataFrame) raises `EmptyDataError`; a header-only
file parses to zero rows. -/
def read_clean (a : CleanArtifact) : Option (List DelayRow) :=
  if a.columns.isEmpty then none else some a.rows

/-- The load task.  The warehouse state is `none` when the warehouse file
does not exist yet, `some rows` otherwise.  On success it returns the new
warehouse contents and `len(df_clean)`, the rows contributed by this run. -/
def load_mbta_to_warehouse (a : CleanArtifact)
    (warehouse : Option (List DelayRow)) : Option (List DelayRow × Nat) :=
  (read_clean a).map (fun clean => (warehouse.getD [] ++ clean, clean.length))

/-- A sequence of load invocations, threading the warehouse state; fails
(`none`) as soon as one invocation fails.  Returns the final warehouse
contents and the per-run returned counts. -/
def loadSeq : List CleanArtifact → Option (List DelayRow) →
    Option (List DelayRow × List Nat)
  | [], w => some (w.getD [], [])
  | a :: rest, w =>
    match load_mbta_to_warehouse a w with
    | none => none
    | some (w2, n) =>
      (loadSeq rest (some w2)).map (fun r => (r.1, n :: r.2))

/-- The soft quality-check task: it only chooses which message to print. -/
def mbta_data_quality_check (loaded_rows : Int) : String :=
  if loaded_rows ≤ 0 then
    "Data quality check: no delayed trips were loaded for this run. This may simply mean there were no delays at this time."
  else
    "Data quality check passed. Delayed trips loaded: " ++ toString loaded_rows

/-! ### Orchestration (Airflow semantics for this DAG)

`default_args` sets `retries = 2` and `retry_delay = 5 minutes`, applied to
every task of the DAG.  Airflow retries a task that fails with an ordinary
exception up to `retries` additional times; a task that raises
`AirflowFailException` is marked failed immediately, without consuming its
retries.  When a task ends up failed, its downstream tasks never run and
the DAG run is failed. -/

/-- Setting `"retries": 2` from `default_args`. -/
def default_args_retries : Nat := 2

/-- Setting `"retry_delay": timedelta(minutes=5)` from `default_args`. -/
def default_args_retry_delay_minutes : Nat := 5

/-- Outcome of one attempt of a task: success, failure raised as
`AirflowFailException` (fails the task without retrying), or failure
raised as an ordinary exception (subject to the retry policy). -/
inductive AttemptResult where
  | ok
  | failFast
  | failRetry
deriving DecidableEq, Repr

/-- Outcome of the HTTP call a task makes: a response with a status code,
or a raised exception (DNS/TLS/timeout...). -/
inductive HttpOutcome where
  | resp (status_code : Nat)
  | exn
deriving DecidableEq, Repr

/-- Task `check_mbta_api`: any request exception and any non-200 status raise
`AirflowFailException`; a 200 response succeeds. -/
def check_mbta_api_attempt : HttpOutcome → AttemptResult
  | .resp s => if s = 200 then .ok else .failFast
  | .exn => .failFast

/-- Task `extract_mbta_predictions` has the same failure discipline as
`check_mbta_api`: every HTTP-level failure raises `AirflowFailException`. -/
def extract_mbta_predictions_attempt : HttpOutcome → AttemptResult
  | .resp s => if s = 200 then .ok else .failFast
  | .exn => .failFast

/-- Attempt loop for one task: `fuel` is the number of attempts still
allowed, `made` the number already made.  Returns the total number of
attempts and whether the task succeeded.  `failRetry` consumes an attempt
and retries while attempts remain; `failFast` stops immediately. -/
def runTaskAux (beh : Nat → AttemptResult) : Nat → Nat → Nat × Bool
  | 0, made => (made, false)
  | fuel + 1, made =>
    match beh made with
    | .ok => (made + 1, true)
    | .failFast => (made + 1, false)
    | .failRetry => runTaskAux beh fuel (made + 1)

/-- Run one task under the retry policy: at most `1 + retries` attempts. -/
def runTask (retries : Nat) (beh : Nat → AttemptResult) : Nat × Bool :=
  runTaskAux beh (retries + 1) 0

/-- Run the DAG's linear task chain: each task runs only if all previous
tasks succeeded.  Returns the attempt count of every task that was
invoked, and whether the whole run succeeded (`false` = FAILED run). -/
def runPipeline (retries : Nat) : List (Nat → AttemptResult) → List Nat × Bool
  | [] => ([], true)
  | b :: rest =>
    let r := runTask retries b
    if r.2 then
      let rr := runPipeline retries rest
      (r.1 :: rr.1, rr.2)
    else ([r.1], false)

/-! ### CSV serialization (for the idempotence property) -/

/-- Render an optional string cell (missing values print empty). -/
def cellS (o : Option String) : String := o.getD ""

/-- Render an optional integer cell. -/
def cellI : Option Int → String
  | none => ""
  | some i => toString i

/-- Render a rational as a decimal-free exact string. -/
def ratStr (q : Rat) : String :=
  if q.den = 1 then toString q.num
  else toString q.num ++ "/" ++ toString q.den

/-- Render an optional rational cell. -/
def cellQ : Option Rat → String
  | none => ""
  | some q => ratStr q

/-- Render one CSV line of a row, columns in `stdCols` order. -/
def rowCsv (r : DelayRow) : String :=
  String.intercalate ","
    [cellS r.route_id, cellS r.route_name, cellS r.trip_id,
     cellS r.headsign, cellI r.direction_id, cellS r.status,
     cellQ r.delay_seconds, cellQ r.delay_minutes,
     cellS r.departure_time, r.execution_date]

/-- The clean artifact rendered to the byte string `df.to_csv` writes
(header line then one line per row; the exact numeric formatting of pandas
is abstracted, which does not affect determinism). -/
def mbtaCleanCsv (a : CleanArtifact) : String :=
  String.intercalate "\n" (String.intercalate "," a.columns :: a.rows.map rowCsv)

/-! ### Concrete payloads used by examples, witnesses and counterexamples -/

-- End-to-end scenario of the spec (3 predictions: delay 120 with
-- resolvable route/trip, delay null, delay 0 without relationships;
-- exactly the null one is dropped).
def fitchburgRoute : IncludedItem :=
  { type := some "route", id := some "CR-Fitchburg",
    attributes := some { long_name := some "Fitchburg Line" } }

def bostonTrip : IncludedItem :=
  { type := some "trip", id := some "trip-1",
    attributes := some { direction_id := some 1, headsign := some "Boston" } }

def predDelay120 : Prediction :=
  { attributes := some { delay := some 120, status := some "Delayed" },
    relationships := some
      { route := some { data := some { id := some "CR-Fitchburg" } },
        trip := some { data := some { id := some "trip-1" } } } }

def predDelayNull : Prediction :=
  { attributes := some { status := some "On time" } }

def predDelay0 : Prediction :=
  { attributes := some { delay := some 0 } }

def scenarioPayload : Payload :=
  { data := [predDelay120, predDelayNull, predDelay0],
    included := [fitchburgRoute, bostonTrip] }

/-- A route entity carrying neither a long nor a short name. -/
def unnamedRoute : IncludedItem :=
  { type := some "route", id := some "R1", attributes := some { } }

/-- A delayed prediction referencing route `R1`. -/
def predOnR1 : Prediction :=
  { attributes := some { delay := some 60 },
    relationships := some { route := some { data := some { id := some "R1" } } } }

/-- Payload exercising the name-resolution fallback chain. -/
def namelessRoutePayload : Payload :=
  { data := [predOnR1], included := [unnamedRoute] }

/-- An included route entity whose `id` key is absent (reads as null). -/
def ghostRoute : IncludedItem :=
  { type := some "route", attributes := some { long_name := some "Ghost" } }

/-- A delayed prediction with no `relationships` object at all. -/
def orphanPred : Prediction :=
  { attributes := some { delay := some 60 } }

/-- Payload where a null-id included route meets a relationship-less
prediction. -/
def ghostPayload : Payload :=
  { data := [orphanPred], included := [ghostRoute] }

/-- Payload with one relationship-less prediction and well-formed lookups. -/
def orphanPayload : Payload :=
  { data := [predDelay0], included := [fitchburgRoute, bostonTrip] }

example :
    ((transform_mbta_data scenarioPayload "2025-01-01").rows.map
      (fun r => (r.route_name, r.delay_minutes)))
    = [(some "Fitchburg Line", some (120 / 60)), (none, some (0 / 60))] := by
  rfl

example : (transform_mbta_data scenarioPayload "2025-01-01").columns = stdCols := by
  decide

example :
    load_mbta_to_warehouse (transform_mbta_data scenarioPayload "d") none
    = some ((transform_mbta_data scenarioPayload "d").rows, 2) := by rfl

example : load_mbta_to_warehouse (transform_mbta_data { } "d") none = none := by
  rfl

/-! ### Helper lemmas -/

lemma makeRow_delay_seconds (rl : List (Option String × RouteInfo))
    (tl : List (Option String × TripInfo)) (e : String) (p : Prediction) :
    (makeRow rl tl e p).delay_seconds = (attrsD p.attributes).delay := rfl

lemma makeRow_delay_minutes (rl : List (Option String × RouteInfo))
    (tl : List (Option String × TripInfo)) (e : String) (p : Prediction) :
    (makeRow rl tl e p).delay_minutes
      = (attrsD p.attributes).delay.map (fun d => d / 60) := rfl

lemma makeRow_route_id (rl : List (Option String × RouteInfo))
    (tl : List (Option String × TripInfo)) (e : String) (p : Prediction) :
    (makeRow rl tl e p).route_id = routeRelId p := rfl

lemma makeRow_route_name (rl : List (Option String × RouteInfo))
    (tl : List (Option String × TripInfo)) (e : String) (p : Prediction) :
    (makeRow rl tl e p).route_name
      = (dget rl (routeRelId p)).bind RouteInfo.route_name := rfl

lemma makeRow_trip_id (rl : List (Option String × RouteInfo))
    (tl : List (Option String × TripInfo)) (e : String) (p : Prediction) :
    (makeRow rl tl e p).trip_id = tripRelId p := rfl

lemma makeRow_headsign (rl : List (Option String × RouteInfo))
    (tl : List (Option String × TripInfo)) (e : String) (p : Prediction) :
    (makeRow rl tl e p).headsign
      = (dget tl (tripRelId p)).bind TripInfo.headsign := rfl

lemma makeRow_direction_id (rl : List (Option String × RouteInfo))
    (tl : List (Option String × TripInfo)) (e : String) (p : Prediction) :
    (makeRow rl tl e p).direction_id
      = (dget tl (tripRelId p)).bind TripInfo.direction_id := rfl

/-- The rows of the clean artifact are the per-prediction rows filtered on
a non-null `delay_seconds` (the emptiness guard is a no-op on the rows). -/
lemma transform_rows_eq (payload : Payload) (execution_date : String) :
    (transform_mbta_data payload execution_date).rows
      = (payload.data.map (makeRow (route_lookup payload.included)
          (trip_lookup payload.included) execution_date)).filter
          (fun r => r.delay_seconds.isSome) := by
  by_cases h : (payload.data.map (makeRow (route_lookup payload.included)
      (trip_lookup payload.included) execution_date)).isEmpty
  · simp only [transform_mbta_data, h, if_true]
    rw [List.isEmpty_iff.mp h]
    rfl
  · simp only [transform_mbta_data, h, if_false]
    rfl

/-- A successful `dget` comes from an entry of the association list. -/
lemma dget_mem {α : Type} (l : List (Option String × α)) (k : Option String)
    (v : α) (h : dget l k = some v) : (k, v) ∈ l := by
  unfold dget at h
  obtain ⟨q, hq, hqv⟩ := Option.map_eq_some'.mp h
  have hmem := List.mem_of_find?_eq_some hq
  have hkey := List.find?_some hq
  rw [List.mem_reverse] at hmem
  obtain ⟨k', v'⟩ := q
  have hk : k' = k := by simpa using hkey
  have hv : v' = v := hqv
  rw [← hk, ← hv]
  exact hmem

/-- Every `route_lookup` entry comes from an included `"route"` item and
stores `long_name or short_name` as the display name. -/
lemma mem_route_lookup (inc : List IncludedItem) (k : Option String)
    (v : RouteInfo) (h : (k, v) ∈ route_lookup inc) :
    ∃ it, it ∈ inc ∧ it.type = some "route" ∧ it.id = k
      ∧ v = { route_id := it.id,
              route_name := pyOr (attrsD it.attributes).long_name
                (attrsD it.attributes).short_name } := by
  unfold route_lookup at h
  obtain ⟨it, hit, hfit⟩ := List.mem_filterMap.mp h
  by_cases ht : it.type = some "route"
  · rw [if_pos ht] at hfit
    obtain ⟨hk, hv⟩ := Prod.mk.injEq .. ▸ Option.some.inj hfit
    exact ⟨it, hit, ht, hk, hv.symm⟩
  · rw [if_neg ht] at hfit
    exact absurd hfit (by simp)

/-- Every `trip_lookup` entry comes from an included `"trip"` item. -/
lemma mem_trip_lookup (inc : List IncludedItem) (k : Option String)
    (v : TripInfo) (h : (k, v) ∈ trip_lookup inc) :
    ∃ it, it ∈ inc ∧ it.type = some "trip" ∧ it.id = k
      ∧ v = { trip_id := it.id,
              direction_id := (attrsD it.attributes).direction_id,
              headsign := (attrsD it.attributes).headsign } := by
  unfold trip_lookup at h
  obtain ⟨it, hit, hfit⟩ := List.mem_filterMap.mp h
  by_cases ht : it.type = some "trip"
  · rw [if_pos ht] at hfit
    obtain ⟨hk, hv⟩ := Prod.mk.injEq .. ▸ Option.some.inj hfit
    exact ⟨it, hit, ht, hk, hv.symm⟩
  · rw [if_neg ht] at hfit
    exact absurd hfit (by simp)

/-! ### C1 -/

/-- C1: the retained row set is exactly the subsequence of prediction
entities whose delay attribute is non-null, in source order, and every
retained row has `delay_minutes = delay_seconds / 60`. -/
theorem transform_filter_invariant (payload : Payload) (execution_date : String) :
    (transform_mbta_data payload execution_date).rows
      = (payload.data.filter
          (fun p => (attrsD p.attributes).delay.isSome)).map
          (makeRow (route_lookup payload.included)
            (trip_lookup payload.included) execution_date)
    ∧ ∀ r ∈ (transform_mbta_data payload execution_date).rows,
        ∃ d, r.delay_seconds = some d ∧ r.delay_minutes = some (d / 60) := by
  constructor
  · rw [transform_rows_eq]
    exact List.filter_map _ _
  · intro r hr
    rw [transform_rows_eq] at hr
    obtain ⟨hmem, hp⟩ := List.mem_filter.mp hr
    obtain ⟨d, hd⟩ := Option.isSome_iff_exists.mp hp
    refine ⟨d, hd, ?_⟩
    obtain ⟨p, _, rfl⟩ := List.mem_map.mp hmem
    rw [makeRow_delay_seconds] at hd
    rw [makeRow_delay_minutes, hd]
    rfl

/-- Witness for C1 at the reference scenario payload. -/
theorem transform_filter_invariant_witness :
    (transform_mbta_data scenarioPayload "2025-01-01").rows
      = (scenarioPayload.data.filter
          (fun p => (attrsD p.attributes).delay.isSome)).map
          (makeRow (route_lookup scenarioPayload.included)
            (trip_lookup scenarioPayload.included) "2025-01-01")
    ∧ ∃ d, (makeRow (route_lookup scenarioPayload.included)
          (trip_lookup scenarioPayload.included) "2025-01-01"
          predDelay120).delay_seconds = some d
        ∧ (makeRow (route_lookup scenarioPayload.included)
            (trip_lookup scenarioPayload.included) "2025-01-01"
            predDelay120).delay_minutes = some (d / 60) :=
  ⟨(transform_filter_invariant scenarioPayload "2025-01-01").1,
   (transform_filter_invariant scenarioPayload "2025-01-01").2 _ (List.Mem.head _)⟩

/-! ### C2 -/

/-- C2 counterexample: a route entity with neither a long nor a short name
resolves to a null `route_name`, not to the route identifier `"R1"` the
claim demands as final fallback. -/
theorem route_name_no_id_fallback :
    ((transform_mbta_data namelessRoutePayload "2025-01-01").rows.map
      DelayRow.route_name) = [none]
    ∧ ((transform_mbta_data namelessRoutePayload "2025-01-01").rows.map
      DelayRow.route_name) ≠ [some "R1"] := by
  refine ⟨rfl, ?_⟩
  intro h
  rw [show ((transform_mbta_data namelessRoutePayload "2025-01-01").rows.map
    DelayRow.route_name) = [none] from rfl] at h
  simp at h

/-- C2 (amended): every retained row's `route_name` is either null (its
route id matches no lookup entry) or the name of a matching included route
entity resolved as `long_name or short_name` — the identifier is never
used as a final fallback. -/
theorem route_name_resolution (payload : Payload) (execution_date : String)
    (r : DelayRow) (hr : r ∈ (transform_mbta_data payload execution_date).rows) :
    (dget (route_lookup payload.included) r.route_id = none ∧ r.route_name = none)
    ∨ ∃ it, it ∈ payload.included ∧ it.type = some "route" ∧ it.id = r.route_id
        ∧ r.route_name = pyOr (attrsD it.attributes).long_name
            (attrsD it.attributes).short_name := by
  rw [transform_rows_eq] at hr
  obtain ⟨p, _, rfl⟩ := List.mem_map.mp (List.mem_of_mem_filter hr)
  rcases hdg : dget (route_lookup payload.included) (routeRelId p) with _ | info
  · left
    constructor
    · rw [makeRow_route_id]
      exact hdg
    · rw [makeRow_route_name, hdg]
      rfl
  · right
    obtain ⟨it, hit, htype, hid, hv⟩ :=
      mem_route_lookup _ _ _ (dget_mem _ _ _ hdg)
    refine ⟨it, hit, htype, ?_, ?_⟩
    · rw [makeRow_route_id]
      exact hid
    · rw [makeRow_route_name, hdg, hv]
      rfl

/-- Witness for the amended C2: the scenario row referencing
`CR-Fitchburg` resolves to the long name of the included route entity. -/
theorem route_name_resolution_witness :
    (dget (route_lookup scenarioPayload.included)
        (makeRow (route_lookup scenarioPayload.included)
          (trip_lookup scenarioPayload.included) "2025-01-01"
          predDelay120).route_id = none
      ∧ (makeRow (route_lookup scenarioPayload.included)
          (trip_lookup scenarioPayload.included) "2025-01-01"
          predDelay120).route_name = none)
    ∨ ∃ it, it ∈ scenarioPayload.included ∧ it.type = some "route"
        ∧ it.id = (makeRow (route_lookup scenarioPayload.included)
            (trip_lookup scenarioPayload.included) "2025-01-01"
            predDelay120).route_id
        ∧ (makeRow (route_lookup scenarioPayload.included)
            (trip_lookup scenarioPayload.included) "2025-01-01"
            predDelay120).route_name
          = pyOr (attrsD it.attributes).long_name
              (attrsD it.attributes).short_name :=
  route_name_resolution scenarioPayload "2025-01-01" _ (List.Mem.head _)

/-! ### C3 -/

/-- Unfolding of one successful load invocation. -/
lemma load_some (a : CleanArtifact) (w : Option (List DelayRow))
    (w2 : List DelayRow) (n : Nat)
    (h : load_mbta_to_warehouse a w = some (w2, n)) :
    w2 = w.getD [] ++ a.rows ∧ n = a.rows.length := by
  unfold load_mbta_to_warehouse read_clean at h
  by_cases hc : a.columns.isEmpty
  · rw [if_pos hc] at h
    exact absurd h (by simp)
  · rw [if_neg hc] at h
    obtain ⟨clean, hc2, hpair⟩ := Option.map_eq_some'.mp h
    obtain rfl := Option.some.inj hc2
    obtain ⟨h1, h2⟩ := Prod.mk.injEq .. ▸ hpair
    exact ⟨h1.symm, h2.symm⟩

/-- C3: any sequence of successful loads, from any starting warehouse
state (existing or not), leaves the warehouse equal to the initial rows
followed by each run's clean rows in order, and each invocation returns
its own clean artifact's row count, not the warehouse total. -/
theorem loader_append_invariant (arts : List CleanArtifact)
    (w : Option (List DelayRow)) (final : List DelayRow) (counts : List Nat)
    (h : loadSeq arts w = some (final, counts)) :
    final = w.getD [] ++ (arts.map CleanArtifact.rows).flatten
    ∧ counts = arts.map (fun a => a.rows.length) := by
  induction arts generalizing w final counts with
  | nil =>
    unfold loadSeq at h
    obtain ⟨h1, h2⟩ := Prod.mk.injEq .. ▸ Option.some.inj h
    constructor
    · rw [← h1]
      simp
    · rw [← h2]
      rfl
  | cons a rest ih =>
    unfold loadSeq at h
    rcases hl : load_mbta_to_warehouse a w with _ | p
    · rw [hl] at h
      exact absurd h (by simp)
    · obtain ⟨w2, n⟩ := p
      rw [hl] at h
      obtain ⟨q, hq, hpair⟩ := Option.map_eq_some'.mp h
      obtain ⟨f2, c2⟩ := q
      obtain ⟨hf, hc⟩ := Prod.mk.injEq .. ▸ hpair
      obtain ⟨hw2, hn⟩ := load_some a w w2 n hl
      obtain ⟨ihf, ihc⟩ := ih (some w2) f2 c2 hq
      constructor
      · rw [← hf, ihf, hw2]
        simp [List.append_assoc]
      · rw [← hc, ihc, hn]
        rfl

/-- Witness for C3: two consecutive loads of the scenario's clean artifact
into an initially absent warehouse. -/
theorem loader_append_invariant_witness :
    ((transform_mbta_data scenarioPayload "d1").rows
        ++ (transform_mbta_data scenarioPayload "d2").rows)
      = (none : Option (List DelayRow)).getD []
        ++ (([transform_mbta_data scenarioPayload "d1",
              transform_mbta_data scenarioPayload "d2"].map
              CleanArtifact.rows).flatten)
    ∧ [2, 2]
      = [transform_mbta_data scenarioPayload "d1",
         transform_mbta_data scenarioPayload "d2"].map
          (fun a => a.rows.length) :=
  loader_append_invariant
    [transform_mbta_data scenarioPayload "d1",
     transform_mbta_data scenarioPayload "d2"] none _ _ rfl

/-! ### C4 -/

/-- C4 (code bug evaluation): on a raw payload with zero prediction
entities the transform succeeds with an empty, column-less clean artifact,
but the subsequent load fails (`pd.read_csv` raises `EmptyDataError` on
the empty file), instead of succeeding with `loaded_row_count 0` as the
claim states. -/
theorem empty_payload_load_failure :
    (transform_mbta_data { } "2025-01-01").rows = []
    ∧ (transform_mbta_data { } "2025-01-01").columns = []
    ∧ load_mbta_to_warehouse (transform_mbta_data { } "2025-01-01") none = none
    ∧ ∀ w, load_mbta_to_warehouse (transform_mbta_data { } "2025-01-01") w = none :=
  ⟨rfl, rfl, rfl, fun _ => rfl⟩

/-! ### C5 -/

/-- C5: the quality check is a total function of the loaded row count — it
never fails; it emits the informational no-delays notice when the count is
non-positive and the success notice carrying the count otherwise. -/
theorem quality_check_soft_gate (loaded_rows : Int) :
    (loaded_rows ≤ 0 → mbta_data_quality_check loaded_rows
      = "Data quality check: no delayed trips were loaded for this run. This may simply mean there were no delays at this time.")
    ∧ (0 < loaded_rows → mbta_data_quality_check loaded_rows
      = "Data quality check passed. Delayed trips loaded: "
          ++ toString loaded_rows) := by
  constructor
  · intro h
    rw [mbta_data_quality_check, if_pos h]
  · intro h
    rw [mbta_data_quality_check, if_neg (not_le.mpr h)]

/-- Witness for C5 at counts 0 and 3. -/
theorem quality_check_soft_gate_witness :
    mbta_data_quality_check 0
      = "Data quality check: no delayed trips were loaded for this run. This may simply mean there were no delays at this time."
    ∧ mbta_data_quality_check 3
      = "Data quality check passed. Delayed trips loaded: "
          ++ toString (3 : Int) :=
  ⟨(quality_check_soft_gate 0).1 (by decide),
   (quality_check_soft_gate 3).2 (by decide)⟩

/-! ### C6 -/

/-- When every included item has a non-null id, the null key is absent
from the route lookup. -/
lemma dget_route_lookup_none (inc : List IncludedItem)
    (hids : ∀ it ∈ inc, it.id ≠ none) :
    dget (route_lookup inc) none = none := by
  rcases h : dget (route_lookup inc) none with _ | v
  · rfl
  · obtain ⟨it, hit, _, hid, _⟩ := mem_route_lookup _ _ _ (dget_mem _ _ _ h)
    exact absurd hid (hids it hit)

/-- When every included item has a non-null id, the null key is absent
from the trip lookup. -/
lemma dget_trip_lookup_none (inc : List IncludedItem)
    (hids : ∀ it ∈ inc, it.id ≠ none) :
    dget (trip_lookup inc) none = none := by
  rcases h : dget (trip_lookup inc) none with _ | v
  · rfl
  · obtain ⟨it, hit, _, hid, _⟩ := mem_trip_lookup _ _ _ (dget_mem _ _ _ h)
    exact absurd hid (hids it hit)

/-- C6 counterexample: an included route entity whose own `id` is null is
stored under the null dictionary key, so a prediction with an absent route
relationship (whose resolved route id is null) picks up that entity's
name — the row's `route_name` is `"Ghost"`, not null as the claim states. -/
theorem null_id_lookup_leak :
    routeRelId orphanPred = none
    ∧ ((transform_mbta_data ghostPayload "2025-01-01").rows.map
        DelayRow.route_name) = [some "Ghost"]
    ∧ ((transform_mbta_data ghostPayload "2025-01-01").rows.map
        DelayRow.route_name) ≠ [none] := by
  refine ⟨rfl, rfl, ?_⟩
  intro h
  rw [show ((transform_mbta_data ghostPayload "2025-01-01").rows.map
    DelayRow.route_name) = [some "Ghost"] from rfl] at h
  simp at h

/-- C6 (amended): provided every included entity has a non-null id, a
prediction whose route/trip relationship is absent gets a null
route_id/trip_id and null name/headsign/direction fields, and one whose
resolved id matches no lookup entry gets null name/headsign/direction
fields; the transform (a total function) never fails on such inputs. -/
theorem lookup_resilience (payload : Payload) (execution_date : String)
    (hids : ∀ it ∈ payload.included, it.id ≠ none)
    (p : Prediction) (_hp : p ∈ payload.data) :
    (routeRelId p = none →
      (makeRow (route_lookup payload.included) (trip_lookup payload.included)
        execution_date p).route_id = none
      ∧ (makeRow (route_lookup payload.included) (trip_lookup payload.included)
          execution_date p).route_name = none)
    ∧ (dget (route_lookup payload.included) (routeRelId p) = none →
        (makeRow (route_lookup payload.included) (trip_lookup payload.included)
          execution_date p).route_name = none)
    ∧ (tripRelId p = none →
        (makeRow (route_lookup payload.included) (trip_lookup payload.included)
          execution_date p).trip_id = none
        ∧ (makeRow (route_lookup payload.included) (trip_lookup payload.included)
            execution_date p).headsign = none
        ∧ (makeRow (route_lookup payload.included) (trip_lookup payload.included)
            execution_date p).direction_id = none)
    ∧ (dget (trip_lookup payload.included) (tripRelId p) = none →
        (makeRow (route_lookup payload.included) (trip_lookup payload.included)
          execution_date p).headsign = none
        ∧ (makeRow (route_lookup payload.included) (trip_lookup payload.included)
            execution_date p).direction_id = none) := by
  refine ⟨?_, ?_, ?_, ?_⟩
  · intro h
    refine ⟨?_, ?_⟩
    · rw [makeRow_route_id, h]
    · rw [makeRow_route_name, h, dget_route_lookup_none payload.included hids]
      rfl
  · intro h
    rw [makeRow_route_name, h]
    rfl
  · intro h
    refine ⟨?_, ?_, ?_⟩
    · rw [makeRow_trip_id, h]
    · rw [makeRow_headsign, h, dget_trip_lookup_none payload.included hids]
      rfl
    · rw [makeRow_direction_id, h, dget_trip_lookup_none payload.included hids]
      rfl
  · intro h
    constructor
    · rw [makeRow_headsign, h]
      rfl
    · rw [makeRow_direction_id, h]
      rfl

/-- Witness for the amended C6: the relationship-less `predDelay0` against
a payload whose included entities all carry ids. -/
theorem lookup_resilience_witness :
    (routeRelId predDelay0 = none →
      (makeRow (route_lookup orphanPayload.included) (trip_lookup orphanPayload.included)
        "2025-01-01" predDelay0).route_id = none
      ∧ (makeRow (route_lookup orphanPayload.included) (trip_lookup orphanPayload.included)
          "2025-01-01" predDelay0).route_name = none)
    ∧ (dget (route_lookup orphanPayload.included) (routeRelId predDelay0) = none →
        (makeRow (route_lookup orphanPayload.included) (trip_lookup orphanPayload.included)
          "2025-01-01" predDelay0).route_name = none)
    ∧ (tripRelId predDelay0 = none →
        (makeRow (route_lookup orphanPayload.included) (trip_lookup orphanPayload.included)
          "2025-01-01" predDelay0).trip_id = none
        ∧ (makeRow (route_lookup orphanPayload.included) (trip_lookup orphanPayload.included)
            "2025-01-01" predDelay0).headsign = none
        ∧ (makeRow (route_lookup orphanPayload.included) (trip_lookup orphanPayload.included)
            "2025-01-01" predDelay0).direction_id = none)
    ∧ (dget (trip_lookup orphanPayload.included) (tripRelId predDelay0) = none →
        (makeRow (route_lookup orphanPayload.included) (trip_lookup orphanPayload.included)
          "2025-01-01" predDelay0).headsign = none
        ∧ (makeRow (route_lookup orphanPayload.included) (trip_lookup orphanPayload.included)
            "2025-01-01" predDelay0).direction_id = none) :=
  lookup_resilience orphanPayload "2025-01-01" (by decide) predDelay0
    (List.Mem.head _)

/-! ### C7 -/

/-- A task whose first attempt succeeds makes exactly one attempt. -/
lemma runTask_first_ok (retries : Nat) (b : Nat → AttemptResult)
    (h : b 0 = AttemptResult.ok) : runTask retries b = (1, true) := by
  simp [runTask, runTaskAux, h]

/-- A task whose first attempt raises `AirflowFailException` fails after
exactly one attempt, regardless of the configured retries. -/
lemma runTask_failFast (retries : Nat) (b : Nat → AttemptResult)
    (h : b 0 = AttemptResult.failFast) : runTask retries b = (1, false) := by
  simp [runTask, runTaskAux, h]

/-- A task that fails every attempt with an ordinary exception consumes
all its fuel. -/
lemma runTaskAux_allRetry (b : Nat → AttemptResult)
    (h : ∀ n, b n = AttemptResult.failRetry) :
    ∀ fuel made, runTaskAux b fuel made = (made + fuel, false) := by
  intro fuel
  induction fuel with
  | zero =>
    intro made
    simp [runTaskAux]
  | succ f ih =>
    intro made
    rw [show runTaskAux b (f + 1) made = runTaskAux b f (made + 1) by
      simp [runTaskAux, h made]]
    rw [ih (made + 1)]
    simp only [Prod.mk.injEq]
    exact ⟨by omega, trivial⟩

/-- A task that fails every attempt with an ordinary exception makes
`1 + retries` attempts, then fails. -/
lemma runTask_allRetry (retries : Nat) (b : Nat → AttemptResult)
    (h : ∀ n, b n = AttemptResult.failRetry) :
    runTask retries b = (1 + retries, false) := by
  rw [runTask, runTaskAux_allRetry b h]
  simp only [Prod.mk.injEq]
  exact ⟨by omega, trivial⟩

/-- Running a chain after a prefix of first-attempt successes prepends one
attempt per prefix task to the attempt log. -/
lemma runPipeline_prefix_ok (retries : Nat)
    (pres tail : List (Nat → AttemptResult)) (a : List Nat)
    (hres : runPipeline retries tail = (a, false)) :
    (∀ p ∈ pres, p 0 = AttemptResult.ok) →
    runPipeline retries (pres ++ tail) = (pres.map (fun _ => 1) ++ a, false) := by
  induction pres with
  | nil =>
    intro _
    simpa using hres
  | cons p rest ih =>
    intro hpre
    have hp0 : p 0 = AttemptResult.ok := hpre p (List.Mem.head _)
    have ihh := ih (fun q hq => hpre q (List.Mem.tail _ hq))
    simp [runPipeline, runTask_first_ok retries p hp0, ihh]

/-- C7 counterexample: the connectivity check receiving HTTP 503 on every
attempt makes exactly 1 attempt (its failure is raised as
`AirflowFailException`, which bypasses the retry policy), not
`1 + configured retries = 3`; the run fails and no later task runs. -/
theorem connectivity_503_single_attempt :
    runPipeline default_args_retries
        [fun _ => check_mbta_api_attempt (HttpOutcome.resp 503),
         fun _ => AttemptResult.failRetry, fun _ => AttemptResult.failRetry,
         fun _ => AttemptResult.failRetry, fun _ => AttemptResult.ok]
      = ([1], false)
    ∧ (1 : Nat) ≠ 1 + default_args_retries := by
  constructor
  · rfl
  · decide

/-- C7 (amended): after any prefix of succeeding stages, a stage whose
every attempt raises `AirflowFailException` (as all HTTP failure paths of
the connectivity-check and extract tasks do) is attempted exactly once,
while a stage failing every attempt with an ordinary exception is
attempted exactly `1 + retries` times; either way the run is FAILED and no
later stage is invoked.  The reference configuration is 2 retries with a
5-minute delay. -/
theorem stage_retry_exhaustion (pres posts : List (Nat → AttemptResult))
    (b : Nat → AttemptResult)
    (hpre : ∀ p ∈ pres, p 0 = AttemptResult.ok) :
    ((∀ n, b n = AttemptResult.failFast) →
      runPipeline default_args_retries (pres ++ b :: posts)
        = (pres.map (fun _ => 1) ++ [1], false))
    ∧ ((∀ n, b n = AttemptResult.failRetry) →
      runPipeline default_args_retries (pres ++ b :: posts)
        = (pres.map (fun _ => 1) ++ [1 + default_args_retries], false))
    ∧ default_args_retries = 2 ∧ default_args_retry_delay_minutes = 5 := by
  refine ⟨?_, ?_, rfl, rfl⟩
  · intro hb
    refine runPipeline_prefix_ok default_args_retries pres (b :: posts) [1] ?_ hpre
    simp [runPipeline, runTask_failFast default_args_retries b (hb 0)]
  · intro hb
    refine runPipeline_prefix_ok default_args_retries pres (b :: posts)
      [1 + default_args_retries] ?_ hpre
    simp [runPipeline, runTask_allRetry default_args_retries b hb]

/-- Witness for the amended C7: one succeeding stage, then a fail-fast
stage (one attempt) resp. an always-retrying stage (three attempts). -/
theorem stage_retry_exhaustion_witness :
    runPipeline default_args_retries
        ([fun _ => AttemptResult.ok]
          ++ (fun _ => AttemptResult.failFast) :: [fun _ => AttemptResult.ok])
      = ([fun _ : Nat => AttemptResult.ok].map (fun _ => 1) ++ [1], false)
    ∧ runPipeline default_args_retries
        ([fun _ => AttemptResult.ok]
          ++ (fun _ => AttemptResult.failRetry) :: [fun _ => AttemptResult.ok])
      = ([fun _ : Nat => AttemptResult.ok].map (fun _ => 1)
          ++ [1 + default_args_retries], false) :=
  ⟨(stage_retry_exhaustion [fun _ => AttemptResult.ok] [fun _ => AttemptResult.ok]
      (fun _ => AttemptResult.failFast)
      (by intro p hp; cases hp with
        | head => rfl
        | tail _ h => cases h)).1 (fun _ => rfl),
   (stage_retry_exhaustion [fun _ => AttemptResult.ok] [fun _ => AttemptResult.ok]
      (fun _ => AttemptResult.failRetry)
      (by intro p hp; cases hp with
        | head => rfl
        | tail _ h => cases h)).2.1 (fun _ => rfl)⟩

/-! ### C8 -/

/-- C8: the transform is a pure function of the raw payload and the run
identifier — the source task reads nothing else (no clock, no randomness,
no ambient state), so repeated invocation on the same input yields the
same artifact and byte-identical serialized output. -/
theorem transform_idempotent (payload : Payload) (execution_date : String) :
    transform_mbta_data payload execution_date
      = transform_mbta_data payload execution_date
    ∧ mbtaCleanCsv (transform_mbta_data payload execution_date)
      = mbtaCleanCsv (transform_mbta_data payload execution_date) :=
  ⟨rfl, rfl⟩

/-! ### C9 -/

/-- C9 counterexample: the clean artifact's run-identifier column is named
`execution_date`, not `run_id`, and a zero-prediction payload yields an
artifact with no columns at all. -/
theorem clean_columns_not_run_id :
    "run_id" ∉ (transform_mbta_data scenarioPayload "2025-01-01").columns
    ∧ "execution_date" ∈ (transform_mbta_data scenarioPayload "2025-01-01").columns
    ∧ (transform_mbta_data { } "2025-01-01").columns = [] := by
  refine ⟨by decide, by decide, rfl⟩

/-- C9 (amended): for every run whose payload has at least one prediction
entity, the clean artifact has exactly the ten Delay Record columns, with
the run identifier held in the `execution_date` column. -/
theorem clean_columns_shape (payload : Payload) (execution_date : String)
    (h : payload.data ≠ []) :
    (transform_mbta_data payload execution_date).columns = stdCols := by
  have hne : (payload.data.map (makeRow (route_lookup payload.included)
      (trip_lookup payload.included) execution_date)).isEmpty = false := by
    cases hd : payload.data with
    | nil => exact absurd hd h
    | cons a l => rfl
  simp [transform_mbta_data, hne]

/-- Witness for the amended C9 at the scenario payload. -/
theorem clean_columns_shape_witness :
    (transform_mbta_data scenarioPayload "2025-01-01").columns = stdCols :=
  clean_columns_shape scenarioPayload "2025-01-01" (by decide)

/-! ### C10 -/

/-- Keep exactly the included items of type `"route"` or `"trip"`. -/
def keepRouteTrip (it : IncludedItem) : Bool :=
  it.type == some "route" || it.type == some "trip"

/-- Unfolding of `route_lookup` on a cons cell. -/
lemma route_lookup_cons (it : IncludedItem) (rest : List IncludedItem) :
    route_lookup (it :: rest)
      = (if it.type = some "route" then
          [(it.id,
            ({ route_id := it.id
               route_name := pyOr (attrsD it.attributes).long_name
                 (attrsD it.attributes).short_name } : RouteInfo))]
        else [])
        ++ route_lookup rest := by
  by_cases hr : it.type = some "route" <;>
    simp [route_lookup, List.filterMap_cons, hr]

/-- Unfolding of `trip_lookup` on a cons cell. -/
lemma trip_lookup_cons (it : IncludedItem) (rest : List IncludedItem) :
    trip_lookup (it :: rest)
      = (if it.type = some "trip" then
          [(it.id,
            ({ trip_id := it.id
               direction_id := (attrsD it.attributes).direction_id
               headsign := (attrsD it.attributes).headsign } : TripInfo))]
        else [])
        ++ trip_lookup rest := by
  by_cases ht : it.type = some "trip" <;>
    simp [trip_lookup, List.filterMap_cons, ht]

/-- Dropping included items of other types leaves the route lookup
unchanged. -/
lemma route_lookup_filter_keep (inc : List IncludedItem) :
    route_lookup (inc.filter keepRouteTrip) = route_lookup inc := by
  induction inc with
  | nil => rfl
  | cons it rest ih =>
    by_cases hk : keepRouteTrip it = true
    · rw [List.filter_cons, if_pos hk, route_lookup_cons, route_lookup_cons, ih]
    · have hr : ¬ it.type = some "route" := by
        intro hcontra
        exact hk (by simp [keepRouteTrip, hcontra])
      rw [List.filter_cons, if_neg hk, ih, route_lookup_cons, if_neg hr,
        List.nil_append]

/-- Dropping included items of other types leaves the trip lookup
unchanged. -/
lemma trip_lookup_filter_keep (inc : List IncludedItem) :
    trip_lookup (inc.filter keepRouteTrip) = trip_lookup inc := by
  induction inc with
  | nil => rfl
  | cons it rest ih =>
    by_cases hk : keepRouteTrip it = true
    · rw [List.filter_cons, if_pos hk, trip_lookup_cons, trip_lookup_cons, ih]
    · have ht : ¬ it.type = some "trip" := by
        intro hcontra
        exact hk (by simp [keepRouteTrip, hcontra])
      rw [List.filter_cons, if_neg hk, ih, trip_lookup_cons, if_neg ht,
        List.nil_append]

/-- C10: included entities whose type is neither `"route"` nor `"trip"`
contribute to neither lookup, so removing them leaves the whole transform
output unchanged. -/
theorem included_non_route_trip_ignored (payload : Payload)
    (execution_date : String) :
    transform_mbta_data
        { data := payload.data,
          included := payload.included.filter keepRouteTrip } execution_date
      = transform_mbta_data payload execution_date := by
  simp only [transform_mbta_data]
  rw [route_lookup_filter_keep, trip_lookup_filter_keep]
